import Mathlib

/-!
Verification of the terminal-injection engine of Claude-Code-Remote.

The definitions below are a shallow embedding of the JavaScript sources:
  - src/utils/shared.js            (generateToken, sanitizeSessionName, escapeForAppleScript)
  - src/utils/webhook-utils.js     (validateToken, validateCommand, RateLimiter)
  - src/utils/controller-injector.js (ControllerInjector._sanitizeSessionName, _tmuxSendKeys)
  - src/relay/tmux-injector.js     (TmuxInjector and SmartInjector)

JavaScript strings are modelled as Lean `String` (a list of characters);
`.length` is character count (the sources only compare lengths of strings
whose characters are in the basic plane, where this agrees with UTF-16
length for the inputs of interest).  A JavaScript value that may fail the
`typeof x !== 'string'` check is modelled as `Option String`, with `none`
standing for any non-string (or null/undefined) input; the empty string is
kept as `some ""` and the definitions reproduce JavaScript falsiness
(`!x` is true for both).  External process invocations are reified as
`ProcCall` values (program name plus argument vector, exactly the
`execFileSync(prog, args)` pairs of the source); the stateful injectors are
functions from an explicit environment describing the outcomes of those
invocations to a result together with the ordered trace of calls made.
-/

namespace CCRemote

/-! ## String helpers: JavaScript `String.prototype.includes` and `trim` -/

/-- `leadMatch needle hay`: `needle` is a prefix of `hay` (character-wise). -/
def leadMatch : List Char → List Char → Bool
  | [], _ => true
  | _ :: _, [] => false
  | a :: as, b :: bs => a == b && leadMatch as bs

/-- `hasSubList needle hay`: `needle` occurs as a contiguous sublist of `hay`. -/
def hasSubList (needle : List Char) : List Char → Bool
  | [] => needle.isEmpty
  | b :: bs => leadMatch needle (b :: bs) || hasSubList needle bs

/-- Model of JavaScript `hay.includes(needle)`. -/
def jsIncludes (hay needle : String) : Bool :=
  hasSubList needle.data hay.data

/-- Characters removed by JavaScript `String.prototype.trim`
(ASCII whitespace plus the Unicode spaces the sources can meet). -/
def isJsSpace (c : Char) : Bool :=
  c == ' ' || c == '\t' || c == '\n' || c == '\r' ||
  c == '\x0b' || c == '\x0c' || c == ' ' || c == ' ' ||
  c == ' ' || c == '﻿'

/-- Drop leading whitespace characters. -/
def dropSpaces : List Char → List Char
  | [] => []
  | c :: cs => if isJsSpace c then dropSpaces cs else c :: cs

/-- Model of JavaScript `s.trim()`: strip whitespace from both ends. -/
def jsTrimList (l : List Char) : List Char :=
  ((dropSpaces l).reverse |> dropSpaces).reverse

/-- Model of JavaScript `s.trim()` on `String`. -/
def jsTrim (s : String) : String :=
  ⟨jsTrimList s.data⟩

/-! ## webhook-utils.js: constants, validateToken, validateCommand -/

/-- `MAX_COMMAND_LENGTH` from src/utils/webhook-utils.js. -/
def MAX_COMMAND_LENGTH : Nat := 10000

/-- `RATE_LIMIT_WINDOW_MS` from src/utils/webhook-utils.js. -/
def RATE_LIMIT_WINDOW_MS : Int := 60000

/-- `RATE_LIMIT_MAX_COMMANDS` from src/utils/webhook-utils.js. -/
def RATE_LIMIT_MAX_COMMANDS : Nat := 30

/-- One character of the class `[A-Z0-9]` used by `TOKEN_REGEX`. -/
def isTokenChar (c : Char) : Bool :=
  ('A' ≤ c && c ≤ 'Z') || ('0' ≤ c && c ≤ '9')

/-- `TOKEN_REGEX.test`, i.e. a match of `^[A-Z0-9]{8}$`. -/
def tokenRegexTest (s : String) : Bool :=
  s.data.length == 8 && s.data.all isTokenChar

/-- Model of JavaScript `s.toUpperCase()` (character-wise ASCII uppercasing,
which is all the sources rely on). -/
def jsToUpper (s : String) : String :=
  ⟨s.data.map Char.toUpper⟩

/-- `validateToken` from src/utils/webhook-utils.js: uppercase the input and
test it against `^[A-Z0-9]{8}$`; return the normalized token or null. -/
def validateToken : Option String → Option String
  | none => none
  | some t =>
    if t = "" then none
    else
      let upperToken := jsToUpper t
      if tokenRegexTest upperToken then some upperToken else none

/-- Result record of `validateCommand` (`{valid, error?, command?}`). -/
structure CmdValidation where
  valid : Bool
  error : Option String
  command : Option String
deriving Repr, DecidableEq

/-- `validateCommand` from src/utils/webhook-utils.js. -/
def validateCommand : Option String → CmdValidation
  | none => ⟨false, some "Command must be a non-empty string", none⟩
  | some c =>
    if c = "" then ⟨false, some "Command must be a non-empty string", none⟩
    else
      let trimmed := jsTrim c
      if trimmed.data.length = 0 then
        ⟨false, some "Command cannot be empty", none⟩
      else if MAX_COMMAND_LENGTH < trimmed.data.length then
        ⟨false,
         some ("Command too long: " ++ toString trimmed.data.length ++ " > "
               ++ toString MAX_COMMAND_LENGTH),
         none⟩
      else ⟨true, none, some trimmed⟩

/-! ## webhook-utils.js: RateLimiter -/

/-- The `RateLimiter` state: window, maximum, and the session map
(an association list standing for the JavaScript `Map`, each value the
ordered list of recorded timestamps). -/
structure RateLimiter where
  windowMs : Int
  maxCommands : Nat
  sessionMap : List (String × List Int)
deriving Repr, DecidableEq

/-- Insert or overwrite a key in the session map. -/
def mapInsert : List (String × List Int) → String → List Int → List (String × List Int)
  | [], k, v => [(k, v)]
  | (k', v') :: rest, k, v =>
    if k' = k then (k, v) :: rest else (k', v') :: mapInsert rest k v

/-- `new RateLimiter(windowMs, maxCommands)`: empty session map. -/
def RateLimiter.make (windowMs : Int) (maxCommands : Nat) : RateLimiter :=
  ⟨windowMs, maxCommands, []⟩

/-- `RateLimiter.checkAndRecord(sessionKey)` at clock value `now`:
evict timestamps at or before `now - windowMs`, refuse if the survivors
already reach `maxCommands`, otherwise record `now` and admit.  Returns the
boolean result and the updated limiter (the JavaScript method mutates
`this`; the eviction is persisted even on refusal, exactly as in the
source where `state.timestamps` is reassigned before the limit check). -/
def RateLimiter.checkAndRecord (rl : RateLimiter) (key : String) (now : Int) :
    Bool × RateLimiter :=
  let windowStart := now - rl.windowMs
  let timestamps := (List.lookup key rl.sessionMap).getD []
  let kept := timestamps.filter (fun ts => windowStart < ts)
  if rl.maxCommands ≤ kept.length then
    (false, ⟨rl.windowMs, rl.maxCommands, mapInsert rl.sessionMap key kept⟩)
  else
    (true, ⟨rl.windowMs, rl.maxCommands, mapInsert rl.sessionMap key (kept ++ [now])⟩)

/-- `RateLimiter.clear(sessionKey)`: delete the key from the session map. -/
def RateLimiter.clear (rl : RateLimiter) (key : String) : RateLimiter :=
  ⟨rl.windowMs, rl.maxCommands, rl.sessionMap.filter (fun p => p.1 != key)⟩

/-- `RateLimiter.clearAll()`: empty the session map. -/
def RateLimiter.clearAll (rl : RateLimiter) : RateLimiter :=
  ⟨rl.windowMs, rl.maxCommands, []⟩

/-! ## shared.js: generateToken, sanitizeSessionName, escapeForAppleScript -/

/-- The alphabet `'ABCDEFGHIJKLMNOPQRSTUVWXYZ0123456789'` of `generateToken`. -/
def tokenChars : List Char :=
  "ABCDEFGHIJKLMNOPQRSTUVWXYZ0123456789".data

/-- `generateToken(length)` from src/utils/shared.js.  The random byte
stream of `crypto.randomBytes` is an explicit parameter `bytes`; character
`i` of the token is `chars[bytes[i] % chars.length]`. -/
def generateToken (bytes : Nat → Nat) (length : Nat) : String :=
  ⟨(List.range length).map (fun i => tokenChars.getD (bytes i % tokenChars.length) 'A')⟩

/-- The character class `[;`$()|\n\r&<>]` stripped by
`sanitizeSessionName` in src/utils/shared.js. -/
def dangerousChar (c : Char) : Bool :=
  c == ';' || c == '\x60' || c == '$' || c == '(' || c == ')' ||
  c == '|' || c == '\n' || c == '\r' || c == '&' || c == '<' || c == '>'

/-- `sanitizeSessionName` from src/utils/shared.js: return `''` for
non-string or empty input, otherwise remove the dangerous characters.
Note that the function always returns a string and never throws. -/
def sanitizeSessionName : Option String → String
  | none => ""
  | some s =>
    if s = "" then ""
    else ⟨s.data.filter (fun c => !dangerousChar c)⟩

/-- The allowlist `[a-zA-Z0-9_-]` of `ControllerInjector._sanitizeSessionName`. -/
def allowedSessionChar (c : Char) : Bool :=
  c.isAlpha || c.isDigit || c == '_' || c == '-'

/-- `ControllerInjector._sanitizeSessionName` from
src/utils/controller-injector.js: throw on non-string or empty input, keep
only `[a-zA-Z0-9_-]`, and throw if nothing survives.  Thrown errors are
modelled with `Except.error` carrying the message. -/
def ctrlSanitizeSessionName : Option String → Except String String
  | none => .error "Invalid session name"
  | some s =>
    if s = "" then .error "Invalid session name"
    else
      let sanitized : String := ⟨s.data.filter allowedSessionChar⟩
      if sanitized = "" then .error "Session name contains no valid characters"
      else .ok sanitized

/-- The invariant regex `^[A-Za-z0-9_-]+$` on session identifiers (spec §3). -/
def matchesSessionIdent (s : String) : Bool :=
  !s.data.isEmpty && s.data.all allowedSessionChar

/-- One escaped character of `escapeForAppleScript` (shared.js): backslash,
double quote, newline, carriage return and tab become two-character escape
sequences, all other characters pass through. -/
def appleScriptEscapeChar (c : Char) : List Char :=
  if c == '\\' then ['\\', '\\']
  else if c == '"' then ['\\', '"']
  else if c == '\n' then ['\\', 'n']
  else if c == '\r' then ['\\', 'r']
  else if c == '\t' then ['\\', 't']
  else [c]

/-- `escapeForAppleScript` from src/utils/shared.js (the chained global
replaces are equivalent to this single character map, since no replacement
output is hit by a later replace). -/
def escapeForAppleScript : Option String → String
  | none => ""
  | some s => if s = "" then "" else ⟨s.data.flatMap appleScriptEscapeChar⟩

/-! ## External process invocations

Every backend operation of the sources is a single
`execFileSync(prog, argumentArray)`; we reify each as a `ProcCall`. -/

/-- One external process invocation: program plus discrete argument list. -/
structure ProcCall where
  prog : String
  args : List String
deriving Repr, DecidableEq

/-- `execFileSync('which', ['tmux'])` from `checkTmuxAvailable`. -/
def whichTmuxCall : ProcCall := ⟨"which", ["tmux"]⟩

/-- `execFileSync('tmux', ['has-session', '-t', sessionName])`. -/
def tmuxHasSessionCall (session : String) : ProcCall :=
  ⟨"tmux", ["has-session", "-t", session]⟩

/-- `execFileSync('tmux', ['new-session', '-d', '-s', sessionName, '-c', cwd, startCmd])`. -/
def tmuxNewSessionCall (session cwd startCmd : String) : ProcCall :=
  ⟨"tmux", ["new-session", "-d", "-s", session, "-c", cwd, startCmd]⟩

/-- `execFileSync('tmux', ['send-keys', '-t', sessionName, ...keys])` from
`TmuxInjector._sendKeysSync` (src/relay/tmux-injector.js line 143): the
keys are spread into the argument array, each key one discrete argument. -/
def tmuxSendKeysCall (session : String) (keys : List String) : ProcCall :=
  ⟨"tmux", ["send-keys", "-t", session] ++ keys⟩

/-- `execFileSync('tmux', ['capture-pane', '-t', sessionName, '-p'])`. -/
def tmuxCapturePaneCall (session : String) : ProcCall :=
  ⟨"tmux", ["capture-pane", "-t", session, "-p"]⟩

/-- `TmuxInjector._sendKeysSync(keys)` performs exactly this one invocation. -/
def sendKeysSyncCalls (session : String) (keys : List String) : List ProcCall :=
  [tmuxSendKeysCall session keys]

/-- `execFileSync('tmux', ['send-keys', '-t', sessionName, keys])` from
`ControllerInjector._tmuxSendKeys` (src/utils/controller-injector.js
line 95): the payload is the single final argument. -/
def ctrlTmuxSendKeysCall (session keys : String) : ProcCall :=
  ⟨"tmux", ["send-keys", "-t", session, keys]⟩

/-- `ControllerInjector._tmuxSendKeys` performs exactly this one invocation. -/
def ctrlSendKeysCalls (session keys : String) : List ProcCall :=
  [ctrlTmuxSendKeysCall session keys]

/-- A call is a `tmux send-keys` keystroke injection. -/
def isSendKeysCall (c : ProcCall) : Bool :=
  c.prog == "tmux" && c.args.headD "" == "send-keys"

/-- A call is a `tmux new-session` creation whose start command is `startCmd`. -/
def isCreateCallWith (startCmd : String) (c : ProcCall) : Bool :=
  c.prog == "tmux" && c.args.headD "" == "new-session" && c.args.getLastD "" == startCmd

/-! ## TmuxInjector: constructor and confirmation state machine -/

/-- The session name computed by the `TmuxInjector` constructor
(src/relay/tmux-injector.js lines 21-22): default `'claude-taskping'` for a
falsy argument, then `sanitizeSessionName`. -/
def tmuxInjectorSessionName (raw : Option String) : String :=
  let rawName :=
    match raw with
    | none => "claude-taskping"
    | some s => if s = "" then "claude-taskping" else s
  sanitizeSessionName (some rawName)

/-- The branch of `handleConfirmations` selected for one captured pane text,
in the fixed precedence order of the source (lines 240-319). -/
inductive PollAction where
  | multiOption
  | singleOption
  | ynPrompt
  | enterPrompt
  | processing
  | completedPrompt
  | errorDetected
  | unrecognized
deriving Repr, DecidableEq

/-- Classify one captured output exactly as the `if` chain of
`handleConfirmations` does.  The pattern strings are byte-for-byte those of
the source (several are mojibake of box-drawing and ellipsis characters;
they are reproduced verbatim with `\u` escapes). -/
def classifyOutput (out : String) : PollAction :=
  if jsIncludes out "Do you want to proceed?" &&
      (jsIncludes out "1. Yes" || jsIncludes out "2. Yes, and don\x27t ask again") then
    .multiOption
  else if jsIncludes out "â¯ 1. Yes" ||
      jsIncludes out "â–· 1. Yes" then
    .singleOption
  else if jsIncludes out "(y/n)" || jsIncludes out "[Y/n]" || jsIncludes out "[y/N]" then
    .ynPrompt
  else if jsIncludes out "Press Enter to continue" || jsIncludes out "Enter to confirm" ||
      jsIncludes out "Press Enter" then
    .enterPrompt
  else if jsIncludes out "Claudingâ€¦" ||
      jsIncludes out "Waitingâ€¦" ||
      jsIncludes out "Processingâ€¦" ||
      jsIncludes out "Workingâ€¦" then
    .processing
  else if (jsIncludes out "â”‚ >" || jsIncludes out "> ") &&
      !jsIncludes out "Do you want to proceed?" &&
      !jsIncludes out "1. Yes" &&
      !jsIncludes out "(y/n)" then
    .completedPrompt
  else if jsIncludes out "Error:" || jsIncludes out "error:" || jsIncludes out "failed" then
    .errorDetected
  else
    .unrecognized

/-- The key sequences `_sendKeysSync` receives for one poll action. -/
def keysForAction : PollAction → List (List String)
  | .multiOption => [["2"], ["Enter"]]
  | .singleOption => [["1"], ["Enter"]]
  | .ynPrompt => [["y"], ["Enter"]]
  | .enterPrompt => [["Enter"]]
  | _ => []

/-- Whether the poll loop continues after this action (everything except
the completed-prompt and error-detected branches, which `break`). -/
def pollContinues (a : PollAction) : Bool :=
  !(a == .completedPrompt || a == .errorDetected)

/-- How the confirmation loop ended. -/
inductive ConfirmOutcome where
  | exhausted
  | captureFailed
  | completedPrompt
  | errorDetected
deriving Repr, DecidableEq

/-- Result of `handleConfirmations`: attempts used, key sequences sent,
process-call trace, termination kind, and the next unread capture index. -/
structure ConfirmResult where
  attempts : Nat
  keysSent : List (List String)
  trace : List ProcCall
  outcome : ConfirmOutcome
  capNext : Nat
deriving Repr, DecidableEq

/-- Environment of outcomes for the external calls a `TmuxInjector` run
makes: availability and session checks, the two creation attempts, the
three keystroke steps, the platform flag guarding the success
notification, the working directory, and the successive `capture-pane`
results (`none` models a failing capture). -/
structure TmuxEnv where
  tmuxAvailable : Bool
  sessionExists : Bool
  createPrimaryOk : Bool
  createFallbackOk : Bool
  sendClearOk : Bool
  sendTextOk : Bool
  sendEnterOk : Bool
  platformDarwin : Bool
  cwd : String
  capture : Nat → Option String

/-- The `while (attempts < maxAttempts)` loop of `handleConfirmations`,
with `remaining` the attempts still allowed.  Each iteration increments
the attempt counter, captures the pane (consuming one index), breaks on a
failed capture, breaks on the completed-prompt and error branches, and
otherwise sends that action's keys and continues. -/
def confirmLoop (env : TmuxEnv) (session : String) :
    Nat → Nat → Nat → List (List String) → List ProcCall → ConfirmResult
  | 0, attemptsDone, capIdx, keysAcc, traceAcc =>
    ⟨attemptsDone, keysAcc, traceAcc, .exhausted, capIdx⟩
  | r + 1, attemptsDone, capIdx, keysAcc, traceAcc =>
    let attempts := attemptsDone + 1
    let traceCap := traceAcc ++ [tmuxCapturePaneCall session]
    match env.capture capIdx with
    | none => ⟨attempts, keysAcc, traceCap, .captureFailed, capIdx + 1⟩
    | some out =>
      let a := classifyOutput out
      if a = .completedPrompt then
        ⟨attempts, keysAcc, traceCap, .completedPrompt, capIdx + 1⟩
      else if a = .errorDetected then
        ⟨attempts, keysAcc, traceCap, .errorDetected, capIdx + 1⟩
      else
        confirmLoop env session r attempts (capIdx + 1) (keysAcc ++ keysForAction a)
          (traceCap ++ (keysForAction a).map (tmuxSendKeysCall session))

/-- `maxAttempts = 8` in `handleConfirmations`. -/
def maxAttempts : Nat := 8

/-- `TmuxInjector.handleConfirmations`, starting at capture index `capIdx`:
run the bounded poll loop, then perform the final state-check capture. -/
def handleConfirmations (env : TmuxEnv) (session : String) (capIdx : Nat) : ConfirmResult :=
  let res := confirmLoop env session maxAttempts 0 capIdx [] []
  ⟨res.attempts, res.keysSent, res.trace ++ [tmuxCapturePaneCall session],
   res.outcome, res.capNext + 1⟩

/-! ## TmuxInjector: injection sequence and full workflow -/

/-- `TmuxInjector.createClaudeSession`: try `clauderun`, fall back to
`claude`, and fail with the fallback error message if both creation
attempts fail (the error text of the thrown exception is abstracted as
`"fallback_error"`). -/
def createClaudeSession (env : TmuxEnv) (session : String) :
    (Bool × Option String) × List ProcCall :=
  if env.createPrimaryOk then
    ((true, none), [tmuxNewSessionCall session env.cwd "clauderun"])
  else if env.createFallbackOk then
    ((true, none),
     [tmuxNewSessionCall session env.cwd "clauderun",
      tmuxNewSessionCall session env.cwd "claude"])
  else
    ((false, some "fallback_error"),
     [tmuxNewSessionCall session env.cwd "clauderun",
      tmuxNewSessionCall session env.cwd "claude"])

/-- `TmuxInjector.injectCommand`: clear input (`C-u`), send the command
text as one argument, send enter (`C-m`), each step aborting on failure;
then one state-check capture and the confirmation handler.  Returns the
(success, error) pair and the ordered trace of process calls. -/
def injectCommand (env : TmuxEnv) (session command : String) :
    (Bool × Option String) × List ProcCall :=
  let t1 := [tmuxSendKeysCall session ["C-u"]]
  if !env.sendClearOk then ((false, some "Failed to clear input"), t1)
  else
    let t2 := t1 ++ [tmuxSendKeysCall session [command]]
    if !env.sendTextOk then ((false, some "Failed to send command"), t2)
    else
      let t3 := t2 ++ [tmuxSendKeysCall session ["C-m"]]
      if !env.sendEnterOk then ((false, some "Failed to send enter"), t3)
      else
        let t4 := t3 ++ [tmuxCapturePaneCall session]
        let conf := handleConfirmations env session 1
        ((true, none), t4 ++ conf.trace)

/-- Result record of `injectCommandFull`
(`{success, error?, message?, session?}`). -/
structure InjectResult where
  success : Bool
  error : Option String
  message : Option String
  session : Option String
deriving Repr, DecidableEq

/-- The mojibake party-popper emoji of the success notification script,
byte-for-byte as in the source. -/
def successEmoji : String := "ðŸŽ‰"

/-- `shortCommand` truncation of `sendSuccessNotification`. -/
def shortCommand (command : String) : String :=
  if 30 < command.data.length then (⟨command.data.take 30⟩ : String) ++ "..." else command

/-- The `osascript` notification invocation of `sendSuccessNotification`
(only issued on macOS). -/
def successNotificationCall (command : String) : ProcCall :=
  ⟨"osascript",
   ["-e",
    "display notification \"" ++ successEmoji ++
    " Command automatically injected into Claude! No manual operation needed\" with title \"TaskPing Remote Control Success\" subtitle \"" ++
    escapeForAppleScript (some (shortCommand command)) ++ "\" sound name \"Glass\""]⟩

/-- The tail of `injectCommandFull` once the session is known to exist:
run the injection sequence, and on success send the macOS notification. -/
def finishInjection (env : TmuxEnv) (session command : String) (t : List ProcCall) :
    InjectResult × List ProcCall :=
  let inj := injectCommand env session command
  let t2 := t ++ inj.2
  if inj.1.1 then
    let t3 := if env.platformDarwin then t2 ++ [successNotificationCall command] else t2
    (⟨true, none, some "Command successfully injected into Claude tmux session", some session⟩, t3)
  else
    (⟨false, some "injection_failed", inj.1.2, none⟩, t2)

/-- `TmuxInjector.injectCommandFull(token, command)`
(src/relay/tmux-injector.js lines 385-431): check tmux availability, check
the session, create it once if missing, then inject.  Note that the
`token` argument is only logged: no `validateToken`/`validateCommand`
call appears anywhere in this workflow. -/
def injectCommandFull (env : TmuxEnv) (session token command : String) :
    InjectResult × List ProcCall :=
  let _ := token
  let t0 := [whichTmuxCall]
  if !env.tmuxAvailable then
    (⟨false, some "tmux_not_installed", some "Need to install tmux: brew install tmux", none⟩, t0)
  else
    let t1 := t0 ++ [tmuxHasSessionCall session]
    if env.sessionExists then
      finishInjection env session command t1
    else
      let cres := createClaudeSession env session
      let t2 := t1 ++ cres.2
      if cres.1.1 then
        finishInjection env session command t2
      else
        (⟨false, some "session_creation_failed", cres.1.2, none⟩, t2)

/-! ## SmartInjector.injectCommand (src/relay/tmux-injector.js SmartInjector) -/

/-- Environment for `SmartInjector`: whether fallback method `i`
(0 = AppleScript, 1 = file drop, 2 = persistent notification,
3 = emergency clipboard) reports success. -/
structure SmartEnv where
  methodResults : Nat → Bool

/-- The `for` loop over the four injection methods: try each in order,
stop at the first success; record the indices of the methods attempted. -/
def smartTryLoop (env : SmartEnv) : List Nat → List Nat → Bool × List Nat
  | [], tried => (false, tried)
  | i :: rest, tried =>
    if env.methodResults i then (true, tried ++ [i])
    else smartTryLoop env rest (tried ++ [i])

/-- `SmartInjector.injectCommand(token, command)`: validate the token,
validate the command, returning `false` *before any method is attempted*
when either fails; otherwise run the ordered method chain.  The second
component is the list of method indices attempted. -/
def smartInjectCommand (env : SmartEnv) (token command : Option String) :
    Bool × List Nat :=
  match validateToken token with
  | none => (false, [])
  | some _ =>
    let validation := validateCommand command
    if !validation.valid then (false, [])
    else smartTryLoop env [0, 1, 2, 3] []

/-! ## Helper lemmas -/

/-- A prefix match survives extending the haystack on the right. -/
theorem leadMatch_append {n p : List Char} (q : List Char) (h : leadMatch n p = true) :
    leadMatch n (p ++ q) = true := by
  induction n generalizing p with
  | nil => simp [leadMatch]
  | cons a as ih =>
    cases p with
    | nil => simp [leadMatch] at h
    | cons b bs =>
      simp only [leadMatch, Bool.and_eq_true] at h
      simpa [leadMatch, h.1] using ih h.2

/-- A substring occurrence survives extending the haystack on the right. -/
theorem hasSubList_append_left {n p : List Char} (q : List Char)
    (h : hasSubList n p = true) : hasSubList n (p ++ q) = true := by
  induction p with
  | nil =>
    simp only [hasSubList, List.isEmpty_iff] at h
    subst h
    cases q with
    | nil => simp [hasSubList]
    | cons c cs => simp [hasSubList, leadMatch]
  | cons b bs ih =>
    simp only [hasSubList, Bool.or_eq_true] at h
    rcases h with h | h
    · simpa [hasSubList] using Or.inl (leadMatch_append q h)
    · simpa [hasSubList] using Or.inr (ih h)

/-- Characters of the `generateToken` alphabet are fixed by uppercasing and
satisfy the token character class. -/
theorem tokenChars_ok : ∀ c ∈ tokenChars, isTokenChar c = true ∧ Char.toUpper c = c := by
  decide

/-- An in-bounds `getD` element belongs to the list. -/
theorem getD_mem_of_lt {l : List Char} {i : Nat} {d : Char} (h : i < l.length) :
    l.getD i d ∈ l := by
  rw [List.getD_eq_getElem?_getD, List.getElem?_eq_getElem h]
  exact List.getElem_mem h

/-- Every character of a generated token comes from the token alphabet. -/
theorem generateToken_mem {bytes : Nat → Nat} {n : Nat} {c : Char}
    (h : c ∈ (generateToken bytes n).data) : c ∈ tokenChars := by
  simp only [generateToken, List.mem_map, List.mem_range] at h
  obtain ⟨i, -, hi⟩ := h
  subst hi
  exact getD_mem_of_lt (Nat.mod_lt _ (by decide))

/-- A generated token has exactly the requested length. -/
theorem generateToken_length (bytes : Nat → Nat) (n : Nat) :
    (generateToken bytes n).data.length = n := by
  simp [generateToken]

/-- The poll loop uses at most `attemptsDone + remaining` attempts. -/
theorem confirmLoop_attempts_le (env : TmuxEnv) (session : String) :
    ∀ (r attemptsDone capIdx : Nat) (keysAcc : List (List String))
      (traceAcc : List ProcCall),
    (confirmLoop env session r attemptsDone capIdx keysAcc traceAcc).attempts ≤
      attemptsDone + r := by
  intro r
  induction r with
  | zero => intro aD cI kA tA; simp [confirmLoop]
  | succ r ih =>
    intro aD cI kA tA
    unfold confirmLoop
    cases hcap : env.capture cI with
    | none => simp
    | some out =>
      by_cases h1 : classifyOutput out = PollAction.completedPrompt
      · simp [h1]
      · by_cases h2 : classifyOutput out = PollAction.errorDetected
        · simp [h1, h2]
        · simp only [h1, h2, if_false]
          calc (confirmLoop env session r (aD + 1) (cI + 1) _ _).attempts
              ≤ (aD + 1) + r := ih (aD + 1) (cI + 1) _ _
            _ = aD + (r + 1) := by omega

/-- When every remaining poll captures unrecognized text, the loop runs all
remaining attempts, sends nothing, and ends exhausted. -/
theorem confirmLoop_unrecognized (env : TmuxEnv) (session : String) :
    ∀ (r attemptsDone capIdx : Nat) (keysAcc : List (List String))
      (traceAcc : List ProcCall),
    (∀ i, i < r → ∃ t, env.capture (capIdx + i) = some t ∧
        classifyOutput t = PollAction.unrecognized) →
    confirmLoop env session r attemptsDone capIdx keysAcc traceAcc =
      ⟨attemptsDone + r, keysAcc,
       traceAcc ++ List.replicate r (tmuxCapturePaneCall session),
       ConfirmOutcome.exhausted, capIdx + r⟩ := by
  intro r
  induction r with
  | zero => intro aD cI kA tA _; simp [confirmLoop]
  | succ r ih =>
    intro aD cI kA tA h
    obtain ⟨t, ht, hcl⟩ := h 0 (Nat.succ_pos r)
    rw [Nat.add_zero] at ht
    unfold confirmLoop
    rw [ht]
    have h1 : classifyOutput t ≠ PollAction.completedPrompt := by rw [hcl]; intro hc; cases hc
    have h2 : classifyOutput t ≠ PollAction.errorDetected := by rw [hcl]; intro hc; cases hc
    simp only [h1, h2, if_false, hcl, keysForAction, List.append_nil, List.map_nil]
    have hrest : ∀ i, i < r → ∃ u, env.capture (cI + 1 + i) = some u ∧
        classifyOutput u = PollAction.unrecognized := by
      intro i hi
      have := h (i + 1) (by omega)
      rwa [show cI + (i + 1) = cI + 1 + i by omega] at this
    rw [ih (aD + 1) (cI + 1) kA (tA ++ [tmuxCapturePaneCall session]) hrest]
    have hn : aD + 1 + r = aD + (r + 1) := by omega
    have hc : cI + 1 + r = cI + (r + 1) := by omega
    rw [hn, hc, List.append_assoc]
    rw [show [tmuxCapturePaneCall session] ++ List.replicate r (tmuxCapturePaneCall session) =
        List.replicate (r + 1) (tmuxCapturePaneCall session) from by
      rw [List.replicate_succ]; rfl]
    simp

/-! ## Claims -/

/-- C1: each keystroke-sending operation (`TmuxInjector._sendKeysSync` and
`ControllerInjector._tmuxSendKeys`) performs exactly one external process
invocation, in which the payload appears as a discrete element of the
`tmux` argument list — it is never concatenated into a shell command
string. -/
theorem c1_send_keys_single_discrete_argument (session payload : String)
    (keys : List String) :
    sendKeysSyncCalls session keys =
      [⟨"tmux", ["send-keys", "-t", session] ++ keys⟩] ∧
    (sendKeysSyncCalls session keys).length = 1 ∧
    payload ∈ (tmuxSendKeysCall session [payload]).args ∧
    (tmuxSendKeysCall session [payload]).args = ["send-keys", "-t", session, payload] ∧
    ctrlSendKeysCalls session payload =
      [⟨"tmux", ["send-keys", "-t", session, payload]⟩] ∧
    (ctrlSendKeysCalls session payload).length = 1 ∧
    payload ∈ (ctrlTmuxSendKeysCall session payload).args := by
  refine ⟨rfl, rfl, ?_, rfl, rfl, rfl, ?_⟩ <;>
    simp [tmuxSendKeysCall, ctrlTmuxSendKeysCall]

/-- C3: a captured pane text containing the "proceed?" question together
with both the "1. Yes" and "2. Yes, and don't ask again" options is
classified as the multi-option confirmation — taking precedence over every
other pattern — and the handler answers with key "2" followed by the
execute key "Enter" (not "1" and not "y"), then keeps polling. -/
theorem c3_multi_option_precedence (s : String)
    (h1 : jsIncludes s "Do you want to proceed?" = true)
    (h2 : jsIncludes s "1. Yes" = true)
    (h3 : jsIncludes s "2. Yes, and don\x27t ask again" = true) :
    classifyOutput s = PollAction.multiOption ∧
    keysForAction (classifyOutput s) = [["2"], ["Enter"]] ∧
    pollContinues (classifyOutput s) = true := by
  have hc : classifyOutput s = PollAction.multiOption := by
    unfold classifyOutput
    simp [h1, h2, h3]
  exact ⟨hc, by rw [hc]; rfl, by rw [hc]; rfl⟩

/-- Witness for C3 at a concrete captured text. -/
theorem c3_multi_option_precedence_witness :
    classifyOutput
        "Do you want to proceed?\n  1. Yes\n  2. Yes, and don\x27t ask again" =
      PollAction.multiOption :=
  (c3_multi_option_precedence _ (by decide) (by decide) (by decide)).1

/-- C8: the confirmation poll loop never exceeds 8 attempts, and when all 8
polls capture unrecognized text it ends normally after the 8th attempt with
outcome "attempts exhausted" (no error, no keys sent). -/
theorem c8_poll_loop_bounded (env : TmuxEnv) (session : String) (capIdx : Nat)
    (h : ∀ i, i < maxAttempts → ∃ t, env.capture (capIdx + i) = some t ∧
        classifyOutput t = PollAction.unrecognized) :
    (∀ (env2 : TmuxEnv) (s2 : String) (c2 : Nat),
        (handleConfirmations env2 s2 c2).attempts ≤ 8) ∧
    (handleConfirmations env session capIdx).attempts = 8 ∧
    (handleConfirmations env session capIdx).outcome = ConfirmOutcome.exhausted ∧
    (handleConfirmations env session capIdx).keysSent = [] := by
  have hb : ∀ (env2 : TmuxEnv) (s2 : String) (c2 : Nat),
      (handleConfirmations env2 s2 c2).attempts ≤ 8 := by
    intro env2 s2 c2
    have := confirmLoop_attempts_le env2 s2 maxAttempts 0 c2 [] []
    simpa [handleConfirmations, maxAttempts] using this
  have hrun := confirmLoop_unrecognized env session 8 0 capIdx [] []
      (by simpa [maxAttempts] using h)
  refine ⟨hb, ?_, ?_, ?_⟩ <;> simp [handleConfirmations, maxAttempts, hrun]

/-- Witness for C8: an environment whose every capture returns text that
matches no prompt pattern. -/
theorem c8_poll_loop_bounded_witness :
    (handleConfirmations
        ⟨true, true, true, true, true, true, true, false, "/work",
         fun _ => some "waiting for results"⟩ "claude-taskping" 1).attempts = 8 ∧
    (handleConfirmations
        ⟨true, true, true, true, true, true, true, false, "/work",
         fun _ => some "waiting for results"⟩ "claude-taskping" 1).outcome =
      ConfirmOutcome.exhausted := by
  have h := c8_poll_loop_bounded
      ⟨true, true, true, true, true, true, true, false, "/work",
       fun _ => some "waiting for results"⟩ "claude-taskping" 1
      (fun i _ => ⟨"waiting for results", rfl, by decide⟩)
  exact ⟨h.2.1, h.2.2.1⟩

/-- Counterexample to C6: `sanitizeSessionName` of src/utils/shared.js does
not raise on the inputs the claim covers — it silently returns the empty
string for a non-string input, for the empty string, and for a name that
becomes empty after stripping the dangerous characters (here `";"`). -/
theorem c6_counterexample :
    sanitizeSessionName (some ";") = "" ∧
    sanitizeSessionName (some "") = "" ∧
    sanitizeSessionName none = "" := by
  decide

/-- C6 amended: `shared.sanitizeSessionName` silently returns the empty
string (never raising) for non-string, empty, or all-dangerous input,
while `ControllerInjector._sanitizeSessionName` is the variant that raises
an error for non-string, empty, or no-valid-character input. -/
theorem c6_amended_sanitizers (x y : Option String)
    (hx : x = none ∨ x = some "" ∨
      ∃ s, x = some s ∧ s.data.filter (fun c => !dangerousChar c) = [])
    (hy : y = none ∨ y = some "" ∨
      ∃ s, y = some s ∧ s.data.filter allowedSessionChar = []) :
    sanitizeSessionName x = "" ∧
    ∃ e, ctrlSanitizeSessionName y = Except.error e := by
  constructor
  · rcases hx with h | h | ⟨s, hxs, hs⟩
    · rw [h]; rfl
    · rw [h]; rfl
    · subst hxs
      simp only [sanitizeSessionName]
      by_cases hse : s = ""
      · rw [if_pos hse]
      · rw [if_neg hse, hs]
  · rcases hy with h | h | ⟨s, hys, hs⟩
    · rw [h]; exact ⟨_, rfl⟩
    · rw [h]; exact ⟨_, rfl⟩
    · subst hys
      simp only [ctrlSanitizeSessionName]
      by_cases hse : s = ""
      · rw [if_pos hse]; exact ⟨_, rfl⟩
      · rw [if_neg hse]
        have hemp : (⟨s.data.filter allowedSessionChar⟩ : String) = "" := by rw [hs]
        rw [if_pos hemp]
        exact ⟨_, rfl⟩

/-- Witness for the amended C6 at concrete inputs. -/
theorem c6_amended_sanitizers_witness :
    sanitizeSessionName (some ";") = "" ∧
    ∃ e, ctrlSanitizeSessionName (some ";") = Except.error e :=
  c6_amended_sanitizers (some ";") (some ";")
    (Or.inr (Or.inr ⟨";", rfl, by decide⟩))
    (Or.inr (Or.inr ⟨";", rfl, by decide⟩))

/-- Counterexample to C7: the `TmuxInjector` constructor sanitizes
`"a b"` to `"a b"` itself (the denylist strips only `;` backtick `$()|&<>`
and newlines), so a session identifier containing a space — which does not
match `^[A-Za-z0-9_-]+$` — reaches the `tmux has-session` and
`tmux send-keys` process calls. -/
theorem c7_counterexample :
    tmuxInjectorSessionName (some "a b") = "a b" ∧
    matchesSessionIdent "a b" = false ∧
    tmuxHasSessionCall "a b" = ⟨"tmux", ["has-session", "-t", "a b"]⟩ ∧
    tmuxSendKeysCall "a b" ["C-u"] = ⟨"tmux", ["send-keys", "-t", "a b", "C-u"]⟩ := by
  decide

/-- C7 amended: session identifiers produced by
`ControllerInjector._sanitizeSessionName` always match `^[A-Za-z0-9_-]+$`,
so every ControllerInjector backend call satisfies the invariant; the
TmuxInjector constructor only strips the denylisted characters and may pass
other characters (for example spaces) through to its tmux calls. -/
theorem c7_amended_ctrl_session_ident (x : Option String) (t : String)
    (h : ctrlSanitizeSessionName x = Except.ok t) :
    matchesSessionIdent t = true := by
  cases x with
  | none => cases h
  | some s =>
    simp only [ctrlSanitizeSessionName] at h
    by_cases hse : s = ""
    · rw [if_pos hse] at h; cases h
    · rw [if_neg hse] at h
      by_cases hemp : (⟨s.data.filter allowedSessionChar⟩ : String) = ""
      · rw [if_pos hemp] at h; cases h
      · rw [if_neg hemp] at h
        injection h with h
        subst h
        unfold matchesSessionIdent
        have hne : s.data.filter allowedSessionChar ≠ [] := by
          intro hc
          exact hemp (by rw [hc])
        rw [Bool.and_eq_true]
        constructor
        · simpa [List.isEmpty_iff] using hne
        · rw [List.all_eq_true]
          intro c hc
          exact (List.mem_filter.mp hc).2

/-- Witness for the amended C7 at a concrete input. -/
theorem c7_amended_ctrl_session_ident_witness :
    matchesSessionIdent "claude-code" = true :=
  c7_amended_ctrl_session_ident (some "claude-code") "claude-code" rfl

/-- Counterexample to C2: `TmuxInjector.injectCommandFull` calls neither
`validateToken` nor `validateCommand`.  With the empty token (invalid) and
the empty command (invalid) it still reaches the backend — here it checks
tmux, checks the session, and injects keystrokes, returning success — so
the workflow does not fail fast before backend calls on invalid input. -/
theorem c2_counterexample :
    validateToken (some "") = none ∧
    (validateCommand (some "")).valid = false ∧
    (injectCommandFull
        ⟨true, true, true, true, true, true, true, false, "/work",
         fun _ => some "> "⟩ "claude-taskping" "" "").1.success = true ∧
    tmuxSendKeysCall "claude-taskping" [""] ∈
      (injectCommandFull
        ⟨true, true, true, true, true, true, true, false, "/work",
         fun _ => some "> "⟩ "claude-taskping" "" "").2 := by
  decide

/-- C2 amended: of the two top-level injection workflows, only
`SmartInjector.injectCommand` validates the token and the command via
InputGuard; when either is invalid it returns a failure result before any
injection method is attempted.  `TmuxInjector.injectCommandFull` performs
no InputGuard validation at all. -/
theorem c2_amended_smart_injector_fails_fast (env : SmartEnv)
    (token command : Option String)
    (h : validateToken token = none ∨ (validateCommand command).valid = false) :
    smartInjectCommand env token command = (false, []) := by
  unfold smartInjectCommand
  cases hv : validateToken token with
  | none => rfl
  | some tok =>
    rcases h with h | h
    · rw [hv] at h; cases h
    · simp [h]

/-- Witness for the amended C2: an invalid token short-circuits before any
method runs, as does an invalid command. -/
theorem c2_amended_smart_injector_fails_fast_witness :
    smartInjectCommand ⟨fun _ => true⟩ (some "bad token!") (some "hi") = (false, []) ∧
    smartInjectCommand ⟨fun _ => true⟩ (some "ABCD1234") (some "   ") = (false, []) :=
  ⟨c2_amended_smart_injector_fails_fast ⟨fun _ => true⟩ (some "bad token!")
      (some "hi") (Or.inl (by decide)),
   c2_amended_smart_injector_fails_fast ⟨fun _ => true⟩ (some "ABCD1234")
      (some "   ") (Or.inr (by decide))⟩

/-- C4: when tmux is available, the target session does not exist, and
both the primary (`clauderun`) and fallback (`claude`) start commands
fail, `injectCommandFull` returns `success:false` with error
`session_creation_failed` after exactly one creation attempt — one
primary `new-session` call plus one fallback `new-session` call — and
sends no keystrokes. -/
theorem c4_session_creation_failed_once (env : TmuxEnv)
    (session token command : String)
    (h1 : env.tmuxAvailable = true) (h2 : env.sessionExists = false)
    (h3 : env.createPrimaryOk = false) (h4 : env.createFallbackOk = false) :
    injectCommandFull env session token command =
      (⟨false, some "session_creation_failed", some "fallback_error", none⟩,
       [whichTmuxCall, tmuxHasSessionCall session,
        tmuxNewSessionCall session env.cwd "clauderun",
        tmuxNewSessionCall session env.cwd "claude"]) ∧
    ((injectCommandFull env session token command).2.countP
        (fun c => isCreateCallWith "clauderun" c)) = 1 ∧
    ((injectCommandFull env session token command).2.countP
        (fun c => isCreateCallWith "claude" c)) = 1 ∧
    ((injectCommandFull env session token command).2.countP
        (fun c => isSendKeysCall c)) = 0 := by
  have hmain : injectCommandFull env session token command =
      (⟨false, some "session_creation_failed", some "fallback_error", none⟩,
       [whichTmuxCall, tmuxHasSessionCall session,
        tmuxNewSessionCall session env.cwd "clauderun",
        tmuxNewSessionCall session env.cwd "claude"]) := by
    simp [injectCommandFull, createClaudeSession, h1, h2, h3, h4]
  refine ⟨hmain, ?_, ?_, ?_⟩ <;> rw [hmain] <;> rfl

/-- Witness for C4 at a concrete environment. -/
theorem c4_session_creation_failed_once_witness :
    (injectCommandFull
        ⟨true, false, false, false, true, true, true, false, "/work",
         fun _ => some "> "⟩ "claude-taskping" "ABCD1234" "echo hi").1 =
      ⟨false, some "session_creation_failed", some "fallback_error", none⟩ := by
  have h := c4_session_creation_failed_once
      ⟨true, false, false, false, true, true, true, false, "/work",
       fun _ => some "> "⟩ "claude-taskping" "ABCD1234" "echo hi"
      rfl rfl rfl rfl
  rw [h.1]

/-- Trimming an all-letter string is the identity (auxiliary for the C9
witness). -/
theorem jsTrimList_replicate_a (n : Nat) :
    jsTrimList (List.replicate (n + 1) 'a') = List.replicate (n + 1) 'a' := by
  have hd : dropSpaces (List.replicate (n + 1) 'a') = List.replicate (n + 1) 'a' := by
    rw [List.replicate_succ]
    simp [dropSpaces, isJsSpace]
  unfold jsTrimList
  rw [hd, List.reverse_replicate, hd, List.reverse_replicate]

/-- C9: `validateCommand` accepts exactly the strings whose trimmed length
is between 1 and `MAX_COMMAND_LENGTH` (returning the trimmed text),
rejects longer input with a message containing "too long", and rejects
non-string and empty-after-trim input. -/
theorem c9_validate_command (s : String) :
    (1 ≤ (jsTrim s).data.length → (jsTrim s).data.length ≤ MAX_COMMAND_LENGTH →
      validateCommand (some s) = ⟨true, none, some (jsTrim s)⟩) ∧
    (MAX_COMMAND_LENGTH < (jsTrim s).data.length →
      (validateCommand (some s)).valid = false ∧
      ∃ e, (validateCommand (some s)).error = some e ∧
        jsIncludes e "too long" = true) ∧
    (validateCommand none).valid = false ∧
    ((jsTrim s).data.length = 0 → (validateCommand (some s)).valid = false) := by
  by_cases hse : s = ""
  · subst hse
    refine ⟨fun h1 _ => absurd h1 (by decide), fun h => absurd h (by decide), rfl,
      fun _ => rfl⟩
  · refine ⟨?_, ?_, rfl, ?_⟩
    · intro hlo hhi
      simp only [validateCommand, if_neg hse]
      rw [if_neg (by omega : ¬ (jsTrim s).data.length = 0),
        if_neg (not_lt.mpr hhi)]
    · intro hlong
      have hnz : ¬ (jsTrim s).data.length = 0 := by omega
      simp only [validateCommand, if_neg hse]
      rw [if_neg hnz, if_pos hlong]
      refine ⟨rfl, _, rfl, ?_⟩
      show hasSubList "too long".data
        ("Command too long: " ++ toString (jsTrim s).data.length ++ " > "
          ++ toString MAX_COMMAND_LENGTH).data = true
      simp only [String.data_append, List.append_assoc]
      exact hasSubList_append_left _ (by decide)
    · intro h0
      simp only [validateCommand, if_neg hse]
      rw [if_pos h0]

/-- Witness for C9: a short command is accepted and trimmed; a
10001-character command is rejected. -/
theorem c9_validate_command_witness :
    validateCommand (some " hi ") = ⟨true, none, some "hi"⟩ ∧
    (validateCommand (some (⟨List.replicate 10001 'a'⟩ : String))).valid = false := by
  constructor
  · have h := (c9_validate_command " hi ").1 (by decide) (by decide)
    rw [h]
    decide
  · have hd : ∀ l : List Char, (jsTrim (⟨l⟩ : String)).data = jsTrimList l :=
      fun _ => rfl
    have hlen : MAX_COMMAND_LENGTH <
        (jsTrim (⟨List.replicate 10001 'a'⟩ : String)).data.length := by
      rw [hd, show (10001 : Nat) = 10000 + 1 from rfl, jsTrimList_replicate_a,
        List.length_replicate]
      decide
    exact ((c9_validate_command _).2.1 hlen).1

/-- C10: a generated token has exactly the requested length, every
character is uppercase alphanumeric (`A`-`Z0`-`9`), and for the default
length 8 the generated token round-trips through `validateToken`
unchanged. -/
theorem c10_generate_token_roundtrip (bytes : Nat → Nat) (n : Nat) (_h : 1 ≤ n) :
    (generateToken bytes n).data.length = n ∧
    (∀ c ∈ (generateToken bytes n).data, isTokenChar c = true) ∧
    validateToken (some (generateToken bytes 8)) = some (generateToken bytes 8) := by
  refine ⟨generateToken_length bytes n, ?_, ?_⟩
  · intro c hc
    exact (tokenChars_ok c (generateToken_mem hc)).1
  · have hlen : (generateToken bytes 8).data.length = 8 := generateToken_length bytes 8
    have hne : generateToken bytes 8 ≠ "" := by
      intro hc
      rw [hc] at hlen
      simp at hlen
    have hupper : jsToUpper (generateToken bytes 8) = generateToken bytes 8 := by
      unfold jsToUpper
      have hmap : (generateToken bytes 8).data.map Char.toUpper =
          (generateToken bytes 8).data.map id :=
        List.map_congr_left (fun c hc => (tokenChars_ok c (generateToken_mem hc)).2)
      rw [hmap, List.map_id]
    have htest : tokenRegexTest (generateToken bytes 8) = true := by
      unfold tokenRegexTest
      rw [Bool.and_eq_true]
      refine ⟨by simp [hlen], ?_⟩
      rw [List.all_eq_true]
      intro c hc
      exact (tokenChars_ok c (generateToken_mem hc)).1
    simp only [validateToken, if_neg hne]
    rw [hupper, if_pos htest]

/-- Looking up the key just inserted by `mapInsert` yields the new value. -/
theorem lookup_mapInsert (m : List (String × List Int)) (k : String) (v : List Int) :
    List.lookup k (mapInsert m k v) = some v := by
  induction m with
  | nil => simp [mapInsert, List.lookup]
  | cons p rest ih =>
    obtain ⟨k', v'⟩ := p
    by_cases hk : k' = k
    · simp [mapInsert, hk, List.lookup]
    · simp only [mapInsert, if_neg hk, List.lookup]
      have : (k == k') = false := by
        rw [beq_eq_false_iff_ne]
        exact fun hc => hk hc.symm
      rw [this]
      exact ih

/-- C5: `checkAndRecord` first evicts timestamps outside the window, then
admits and records `now` iff fewer than `maxCommands` remain, refusing
without recording otherwise (first conjunct, the general
characterization); and with window 60000 and max 3, four consecutive
calls for key "s" within the window return true, true, true, false, a
`clear "s"` followed by another call returns true, and a different key
"k" is admitted despite "s" being exhausted. -/
theorem c5_rate_limiter_sliding_window (t1 t2 t3 t4 t5 : Int)
    (h12 : t1 ≤ t2) (h23 : t2 ≤ t3) (h34 : t3 ≤ t4) (hw : t4 < t1 + 60000) :
    (∀ (rl : RateLimiter) (key : String) (now : Int),
      ((rl.checkAndRecord key now).1 = true ↔
        (((List.lookup key rl.sessionMap).getD []).filter
            (fun ts => now - rl.windowMs < ts)).length < rl.maxCommands) ∧
      List.lookup key (rl.checkAndRecord key now).2.sessionMap =
        some ((((List.lookup key rl.sessionMap).getD []).filter
            (fun ts => now - rl.windowMs < ts)) ++
          (if (((List.lookup key rl.sessionMap).getD []).filter
              (fun ts => now - rl.windowMs < ts)).length < rl.maxCommands
           then [now] else []))) ∧
    ((RateLimiter.make 60000 3).checkAndRecord "s" t1).1 = true ∧
    ((((RateLimiter.make 60000 3).checkAndRecord "s" t1).2.checkAndRecord
        "s" t2).1 = true) ∧
    (((((RateLimiter.make 60000 3).checkAndRecord "s" t1).2.checkAndRecord
        "s" t2).2.checkAndRecord "s" t3).1 = true) ∧
    ((((((RateLimiter.make 60000 3).checkAndRecord "s" t1).2.checkAndRecord
        "s" t2).2.checkAndRecord "s" t3).2.checkAndRecord "s" t4).1 = false) ∧
    (((((((RateLimiter.make 60000 3).checkAndRecord "s" t1).2.checkAndRecord
        "s" t2).2.checkAndRecord "s" t3).2.checkAndRecord "s" t4).2.clear
        "s").checkAndRecord "s" t5).1 = true ∧
    ((((((RateLimiter.make 60000 3).checkAndRecord "s" t1).2.checkAndRecord
        "s" t2).2.checkAndRecord "s" t3).2.checkAndRecord "s" t4).2.checkAndRecord
        "k" t5).1 = true := by
  have f21 : t2 - 60000 < t1 := by omega
  have f31 : t3 - 60000 < t1 := by omega
  have f32 : t3 - 60000 < t2 := by omega
  have f41 : t4 - 60000 < t1 := by omega
  have f42 : t4 - 60000 < t2 := by omega
  have f43 : t4 - 60000 < t3 := by omega
  have e1 : (RateLimiter.make 60000 3).checkAndRecord "s" t1 =
      (true, ⟨60000, 3, [("s", [t1])]⟩) := by
    simp [RateLimiter.make, RateLimiter.checkAndRecord, mapInsert, List.lookup]
  have e2 : (⟨60000, 3, [("s", [t1])]⟩ : RateLimiter).checkAndRecord "s" t2 =
      (true, ⟨60000, 3, [("s", [t1, t2])]⟩) := by
    simp [RateLimiter.checkAndRecord, mapInsert, List.lookup, f21]
  have e3 : (⟨60000, 3, [("s", [t1, t2])]⟩ : RateLimiter).checkAndRecord "s" t3 =
      (true, ⟨60000, 3, [("s", [t1, t2, t3])]⟩) := by
    simp [RateLimiter.checkAndRecord, mapInsert, List.lookup, f31, f32]
  have e4 : (⟨60000, 3, [("s", [t1, t2, t3])]⟩ : RateLimiter).checkAndRecord "s" t4 =
      (false, ⟨60000, 3, [("s", [t1, t2, t3])]⟩) := by
    simp [RateLimiter.checkAndRecord, mapInsert, List.lookup, f41, f42, f43]
  have e5 : (⟨60000, 3, [("s", [t1, t2, t3])]⟩ : RateLimiter).clear "s" =
      ⟨60000, 3, []⟩ := by
    simp [RateLimiter.clear]
  have e6 : ((⟨60000, 3, []⟩ : RateLimiter).checkAndRecord "s" t5).1 = true := by
    simp [RateLimiter.checkAndRecord, mapInsert, List.lookup]
  have e7 : ((⟨60000, 3, [("s", [t1, t2, t3])]⟩ : RateLimiter).checkAndRecord
      "k" t5).1 = true := by
    simp [RateLimiter.checkAndRecord, mapInsert, List.lookup]
  refine ⟨?_, ?_, ?_, ?_, ?_, ?_, ?_⟩
  · intro rl key now
    unfold RateLimiter.checkAndRecord
    by_cases hm : rl.maxCommands ≤
        (((List.lookup key rl.sessionMap).getD []).filter
          (fun ts => now - rl.windowMs < ts)).length
    · rw [if_pos hm]
      constructor
      · constructor
        · intro hc; cases hc
        · intro hc; omega
      · rw [lookup_mapInsert, if_neg (by omega), List.append_nil]
    · rw [if_neg hm]
      constructor
      · constructor
        · intro _; omega
        · intro _; rfl
      · rw [lookup_mapInsert, if_pos (by omega)]
  · rw [e1]
  · rw [e1, e2]
  · rw [e1, e2, e3]
  · rw [e1, e2, e3, e4]
  · rw [e1, e2, e3, e4, e5, e6]
  · rw [e1, e2, e3, e4, e7]

/-- Witness for C5 at concrete times inside one window. -/
theorem c5_rate_limiter_sliding_window_witness :
    ((RateLimiter.make 60000 3).checkAndRecord "s" 0).1 = true ∧
    ((((RateLimiter.make 60000 3).checkAndRecord "s" 0).2.checkAndRecord
        "s" 1).1 = true) ∧
    (((((RateLimiter.make 60000 3).checkAndRecord "s" 0).2.checkAndRecord
        "s" 1).2.checkAndRecord "s" 2).1 = true) ∧
    ((((((RateLimiter.make 60000 3).checkAndRecord "s" 0).2.checkAndRecord
        "s" 1).2.checkAndRecord "s" 2).2.checkAndRecord "s" 3).1 = false) ∧
    (((((((RateLimiter.make 60000 3).checkAndRecord "s" 0).2.checkAndRecord
        "s" 1).2.checkAndRecord "s" 2).2.checkAndRecord "s" 3).2.clear
        "s").checkAndRecord "s" 4).1 = true ∧
    ((((((RateLimiter.make 60000 3).checkAndRecord "s" 0).2.checkAndRecord
        "s" 1).2.checkAndRecord "s" 2).2.checkAndRecord "s" 3).2.checkAndRecord
        "k" 4).1 = true := by
  have h := c5_rate_limiter_sliding_window 0 1 2 3 4
      (by decide) (by decide) (by decide) (by decide)
  exact ⟨h.2.1, h.2.2.1, h.2.2.2.1, h.2.2.2.2.1, h.2.2.2.2.2.1, h.2.2.2.2.2.2⟩

/-- Witness for C10 at a concrete byte stream. -/
theorem c10_generate_token_roundtrip_witness :
    (generateToken (fun i => i * 97) 8).data.length = 8 ∧
    validateToken (some (generateToken (fun i => i * 97) 8)) =
      some (generateToken (fun i => i * 97) 8) :=
  ⟨(c10_generate_token_roundtrip (fun i => i * 97) 8 (by decide)).1,
   (c10_generate_token_roundtrip (fun i => i * 97) 8 (by decide)).2.2⟩

end CCRemote
